import Mathlib

/-!
Shallow embedding of the relevance-learning and scheduling core of the
web_scanner repository (src/web_scanner/src/content_filter.py,
learning_database.py, scheduler.py), together with theorems settling the
frozen claims about it.

Strings are embedded as `List Char`; Python `str.lower()` is `Char.toLower`
mapped over the list (faithful on ASCII, which is all the filters inspect);
Python float ratio comparisons (`x / y > 0.3` and the like) are embedded as
exact rational comparisons in `ℚ` (`(0 : ℚ)` on division by zero, which is
unreachable in the code paths where the code divides); timestamps are
abstract integer instants.
-/

/-- Embedded Python strings: sequences of characters. -/
abbrev Str := List Char

/-- Turn a Lean string literal into an embedded string. -/
def str (s : String) : Str := s.data

/-- Python `str.lower()` (ASCII-faithful). -/
def lowerStr (s : Str) : Str := s.map Char.toLower

/-- A regex word character (`\w` over ASCII): letter, digit or underscore. -/
def isWordChar (c : Char) : Bool := c.isAlpha || c.isDigit || c = '_'

/-- Whether position `i` of `s` holds a word character (out of range: no). -/
def wordCharAt (s : Str) (i : Nat) : Bool :=
  match s.get? i with
  | some c => isWordChar c
  | none => false

/-- The regex word boundary `\b` at position `i` of `s` (positions `0..s.length`):
exactly one side of the position is a word character. -/
def atBoundary (s : Str) (i : Nat) : Bool :=
  (if i = 0 then false else wordCharAt s (i - 1)) != wordCharAt s i

/-- Whether `p` occurs at the front of `t`, character by character. -/
def startsWith : Str → Str → Bool
  | [], _ => true
  | _ :: _, [] => false
  | p :: ps, t :: ts => p = t && startsWith ps ts

/-- The compiled pattern search of the filter: `\b` + escaped pattern + `\b`
with IGNORECASE, searched in `s`:
some occurrence of `pat` in `s` delimited by word boundaries on both sides,
case-insensitively. -/
def wwSearch (pat s : Str) : Bool :=
  let p := lowerStr pat
  let t := lowerStr s
  (List.range (t.length + 1)).any fun i =>
    atBoundary t i && startsWith p (t.drop i) && atBoundary t (i + p.length)

/-- Python `pat.lower() in s.lower()`: case-insensitive substring containment. -/
def subSearch (pat s : Str) : Bool :=
  let p := lowerStr pat
  let t := lowerStr s
  (List.range (t.length + 1)).any fun i => startsWith p (t.drop i)

/-- Python `str.split()`: split on whitespace runs, discarding empty pieces
(auxiliary accumulator form). -/
def splitWordsAux : Str → Str → List Str
  | [], acc => if acc.isEmpty then [] else [acc.reverse]
  | c :: cs, acc =>
    if c.isWhitespace then
      if acc.isEmpty then splitWordsAux cs [] else acc.reverse :: splitWordsAux cs []
    else splitWordsAux cs (c :: acc)

/-- Python `str.split()` with no separator argument. -/
def splitWords (s : Str) : List Str := splitWordsAux s []

/-- `sum(1 for c in title if c.isupper())`. -/
def countUpper (s : Str) : Nat := (s.filter Char.isUpper).length

/-- The count of `!` and `?` characters of the content. -/
def countPunct (s : Str) : Nat := (s.filter fun c => c = '!' || c = '?').length

/-- An article record as the filters see it: the dict keys `title`, `content`
(used by the content filter), `cleaned_content` (used by the learning
database) and `image_url` (`none` stands for a missing key). -/
structure Article where
  title : Str
  content : Str
  cleaned_content : Str
  image_url : Option Str
deriving DecidableEq

/-- Python truthiness of the image_url field: a present, non-empty
string. -/
def optTruthy : Option Str → Bool
  | none => false
  | some s => !s.isEmpty

/-- Configuration consumed by `ContentFilter.__init__`: the keyword list, the
blacklist and the minimum content length. -/
structure CFConfig where
  keywords : List Str
  blacklist : List Str
  min_content_length : Nat
deriving DecidableEq

/-- `ContentFilter._contains_keywords`: with no keywords configured every text
is accepted, otherwise some compiled whole-word pattern must match. -/
def contains_keywords (cf : CFConfig) (text : Str) : Bool :=
  if cf.keywords.isEmpty then true
  else cf.keywords.any fun k => wwSearch k text

/-- `ContentFilter._contains_blacklisted_terms`: some compiled whole-word
blacklist pattern matches. -/
def contains_blacklisted_terms (cf : CFConfig) (text : Str) : Bool :=
  cf.blacklist.any fun term => wwSearch term text

/-- `ContentFilter._is_low_quality_content`: fewer than 20 words, low
word diversity, or excessive `!`/`?` punctuation. The two divisions of the
source are embedded as exact rational comparisons. -/
def is_low_quality_content (content : Str) : Bool :=
  let words := splitWords (lowerStr content)
  if words.length < 20 then true
  else if ((words.dedup.length : ℚ) / (words.length : ℚ) < 3 / 10) then true
  else if ((countPunct content : ℚ) / (content.length : ℚ) > 5 / 100) then true
  else false

/-- `ContentFilter._additional_relevance_checks`: title length band, content
quality, and excessive capitalization of the title. -/
def additional_relevance_checks (a : Article) : Bool :=
  if a.title.length < 10 ∨ 200 < a.title.length then false
  else if is_low_quality_content a.content then false
  else if ((countUpper a.title : ℚ) / (a.title.length : ℚ) > 3 / 10) then false
  else true

/-- `ContentFilter.is_relevant`: lowercase title and content, join them with a
single space, and run the rejection gates in order. -/
def is_relevant (cf : CFConfig) (a : Article) : Bool :=
  let title := lowerStr a.title
  let content := lowerStr a.content
  let combined_text := title ++ [' '] ++ content
  if combined_text.length < cf.min_content_length then false
  else if contains_blacklisted_terms cf combined_text then false
  else if ¬ contains_keywords cf combined_text then false
  else additional_relevance_checks a

/-! ## Learning database (learning_database.py) -/

/-- A row of the `articles` table, with the columns the claims inspect.
`user_interest` holds the integer the code writes (1 interested,
0 not interested), `none` for SQL NULL. -/
structure StoredArticle where
  id : Nat
  title : Str
  content : Str
  image_url : Option Str
  relevance_score : ℚ
  user_interest : Option Nat
deriving DecidableEq

/-- A row of the `user_feedback` table; the timestamp is an abstract integer
instant. -/
structure FeedbackRow where
  article_id : Nat
  feedback_type : Str
  feedback_timestamp : Int
deriving DecidableEq

/-- The state of `LearningDatabase`: the two tables the claims inspect plus
the in-memory classifier state (`self.vectorizer`, `self.classifier`,
`self.model_trained`). Vectorizer and classifier objects are abstracted to
integer identities; `none` is Python `None`. -/
structure LearnDB where
  articles : List StoredArticle
  feedback : List FeedbackRow
  vectorizer : Option Nat
  classifier : Option Nat
  model_trained : Bool
deriving DecidableEq

/-- Configuration read by `LearningDatabase` from
`content_filter.keywords` / `content_filter.blacklist`. -/
structure LDConfig where
  keywords : List Str
  blacklist : List Str
deriving DecidableEq

/-- The `keyword_matches` sum of `_calculate_relevance_score`: how many
configured keywords occur as case-insensitive substrings of the combined
title and cleaned content. -/
def score_keyword_matches (cfg : LDConfig) (a : Article) : Nat :=
  (cfg.keywords.filter fun k => subSearch k (a.title ++ [' '] ++ a.cleaned_content)).length

/-- `LearningDatabase._calculate_relevance_score`, accumulating the score in
source order: title-length band, content length, keyword presence by
case-insensitive substring containment, image truthiness, capped at 1. -/
def calculate_relevance_score (cfg : LDConfig) (a : Article) : ℚ :=
  let title := a.title
  let content := a.cleaned_content
  let score0 : ℚ := 0
  let score1 := if 20 ≤ title.length ∧ title.length ≤ 100 then score0 + 2 / 10 else score0
  let score2 := if 200 < content.length then score1 + 2 / 10 else score1
  let keyword_matches := score_keyword_matches cfg a
  let score3 :=
    if cfg.keywords.isEmpty then score2
    else score2 + ((keyword_matches : ℚ) / (cfg.keywords.length : ℚ)) * (4 / 10)
  let score4 := if optTruthy a.image_url then score3 + 2 / 10 else score3
  min score4 1

/-- `LearningDatabase.record_article`: insert a row whose `relevance_score`
is computed by `calculate_relevance_score` at record time (`newId` stands for
the autoincrement key). -/
def record_article (cfg : LDConfig) (db : LearnDB) (a : Article) (newId : Nat) : LearnDB :=
  { db with
    articles := db.articles ++
      [{ id := newId, title := a.title, content := a.cleaned_content,
         image_url := a.image_url,
         relevance_score := calculate_relevance_score cfg a,
         user_interest := none }] }

/-- `LearningDatabase._basic_interest_prediction`: substring blacklist
rejection, then substring keyword acceptance, else reject. -/
def basic_interest_prediction (cfg : LDConfig) (a : Article) : Bool :=
  let title := lowerStr a.title
  let content := lowerStr a.cleaned_content
  let combined_text := title ++ [' '] ++ content
  if cfg.blacklist.any (fun term => subSearch term combined_text) then false
  else if cfg.keywords.any (fun k => subSearch k combined_text) then true
  else false

/-- One day, in the abstract seconds of feedback timestamps
(the SQL window `now - 1 day`). -/
def oneDay : Int := 86400

/-- The `_should_retrain` count: feedback rows with
`feedback_timestamp` strictly inside the trailing day. -/
def recent_feedback_count (db : LearnDB) (now : Int) : Nat :=
  (db.feedback.filter fun f => now - oneDay < f.feedback_timestamp).length

/-- `LearningDatabase._should_retrain`: at least 10 feedback rows in the
trailing 24 hours. -/
def should_retrain (db : LearnDB) (now : Int) : Bool :=
  10 ≤ recent_feedback_count db now

/-- The rows `SELECT ... FROM articles WHERE user_interest IS NOT NULL`
feeding training. -/
def labeledArticles (db : LearnDB) : List StoredArticle :=
  db.articles.filter fun a => a.user_interest.isSome

/-- `labeled_count`: articles carrying a label. -/
def labeled_count (db : LearnDB) : Nat := (labeledArticles db).length

/-- Environment for one `_train_model` run: the fresh vectorizer and
classifier objects the run constructs, and which fallible library step (if
any) raises — `some 0`: `vectorizer.fit_transform`, `some 1`:
`classifier.fit`, `some 2`: prediction/accuracy evaluation; anything else:
all steps succeed. -/
structure TrainEnv where
  failStep : Option Nat
  newVec : Nat
  newClf : Nat
deriving DecidableEq

/-- `LearningDatabase._train_model`, with its `try`/`except` that swallows
any exception: fewer than 50 labeled rows returns with no state change;
otherwise `self.vectorizer` is assigned before `fit_transform` runs,
`self.classifier` before `fit` runs, and `self.model_trained` is set only
after evaluation succeeds — an exception leaves whatever was already
assigned. -/
def train_model (db : LearnDB) (env : TrainEnv) : LearnDB :=
  let data := labeledArticles db
  if data.length < 50 then db
  else
    let db1 := { db with vectorizer := some env.newVec }
    if env.failStep = some 0 then db1
    else
      let db2 := { db1 with classifier := some env.newClf }
      if env.failStep = some 1 then db2
      else if env.failStep = some 2 then db2
      else { db2 with model_trained := true }

/-- `LearningDatabase.record_user_feedback`: append the feedback row, map an
`interested` / `not_interested` kind to the `user_interest` label of the article
(any matching row; unknown ids update nothing), commit, then evaluate
`_should_retrain` on the committed state and invoke `_train_model` when it
holds. Returns the new state and whether retraining was invoked. -/
def record_user_feedback (db : LearnDB) (env : TrainEnv) (article_id : Nat)
    (feedback_type : Str) (now : Int) : LearnDB × Bool :=
  let db1 := { db with
    feedback := db.feedback ++ [⟨article_id, feedback_type, now⟩] }
  let user_interest : Option Nat :=
    if feedback_type = str "interested" then some 1
    else if feedback_type = str "not_interested" then some 0
    else none
  let db2 :=
    match user_interest with
    | some u => { db1 with
        articles := db1.articles.map fun a =>
          if a.id = article_id then { a with user_interest := some u } else a }
    | none => db1
  if should_retrain db2 now then (train_model db2 env, true) else (db2, false)

/-! ## Scan scheduler (scheduler.py) -/

/-- The mutable state of `ScannerScheduler`: interval, the copy persisted via
`config.set` by `set_scan_interval`, the `enabled` / `running` flags and the
run statistics. Times are abstract integer instants (seconds granularity). -/
structure SchedState where
  scan_interval : Int
  config_scan_interval : Int
  enabled : Bool
  running : Bool
  last_scan : Option Int
  next_scan : Option Int
  total_scans : Nat
  successful_scans : Nat
  failed_scans : Nat
deriving DecidableEq

/-- `ScannerScheduler.__init__` with the configured interval. -/
def initSched (interval : Int) : SchedState :=
  { scan_interval := interval, config_scan_interval := interval,
    enabled := true, running := false,
    last_scan := none, next_scan := none,
    total_scans := 0, successful_scans := 0, failed_scans := 0 }

/-- `ScannerScheduler._schedule_next_scan`: `last_scan + interval` when a
scan has happened, else `now + 60`. -/
def schedule_next_scan (st : SchedState) (now : Int) : SchedState :=
  match st.last_scan with
  | some t => { st with next_scan := some (t + st.scan_interval) }
  | none => { st with next_scan := some (now + 60) }

/-- `ScannerScheduler._perform_scan` at instant `now`; `scanFails` is whether
the pipeline raises. On success: set `last_scan`, bump `total_scans` and
`successful_scans`; the `except` branch bumps `total_scans` and
`failed_scans` and leaves `last_scan` alone. Nothing escapes the method. -/
def perform_scan (st : SchedState) (now : Int) (scanFails : Bool) : SchedState :=
  if scanFails then
    { st with total_scans := st.total_scans + 1, failed_scans := st.failed_scans + 1 }
  else
    { st with last_scan := some now, total_scans := st.total_scans + 1,
              successful_scans := st.successful_scans + 1 }

/-- One iteration of the `while self.running` body of
`ScannerScheduler._run_scheduler`: when `next_scan` is set and `now` has
reached it, perform the scan and reschedule. Returns the new state and
whether a scan fired. The loop reads only `self.running` and
`self.next_scan`; the `enabled` flag is not consulted. -/
def scheduler_tick (st : SchedState) (now : Int) (scanFails : Bool) : SchedState × Bool :=
  if st.running then
    match st.next_scan with
    | some t =>
      if t ≤ now then (schedule_next_scan (perform_scan st now scanFails) now, true)
      else (st, false)
    | none => (st, false)
  else (st, false)

/-- `ScannerScheduler.start`: no-op when already running, else raise the
flags and schedule the first scan. -/
def startSched (st : SchedState) (now : Int) : SchedState :=
  if st.running then st
  else schedule_next_scan { st with enabled := true, running := true } now

/-- `ScannerScheduler.stop`: lower both flags. -/
def stopSched (st : SchedState) : SchedState :=
  { st with enabled := false, running := false }

/-- `ScannerScheduler.pause`: lower `enabled` only. -/
def pauseSched (st : SchedState) : SchedState := { st with enabled := false }

/-- `ScannerScheduler.resume`: raises (second component `true`) when not
running; otherwise re-enables and reschedules. -/
def resumeSched (st : SchedState) (now : Int) : SchedState × Bool :=
  if st.running then (schedule_next_scan { st with enabled := true } now, false)
  else (st, true)

/-- `ScannerScheduler.set_scan_interval`: raises `ValueError` (second
component `true`) for an interval below 60 seconds, before any mutation;
otherwise updates and persists the interval and, when running, reschedules. -/
def set_scan_interval (st : SchedState) (interval : Int) (now : Int) : SchedState × Bool :=
  if interval < 60 then (st, true)
  else
    let st1 := { st with scan_interval := interval, config_scan_interval := interval }
    if st1.running then (schedule_next_scan st1 now, false) else (st1, false)

/-- `ScannerScheduler.trigger_scan_now`: raises when not running, else sets
`next_scan := now`. -/
def trigger_scan_now (st : SchedState) (now : Int) : SchedState × Bool :=
  if st.running then ({ st with next_scan := some now }, false)
  else (st, true)

/-- The `success_rate` field of `ScannerScheduler.get_status`:
`successful_scans / max(total_scans, 1)`. -/
def success_rate (st : SchedState) : ℚ :=
  (st.successful_scans : ℚ) / ((max st.total_scans 1 : Nat) : ℚ)

/-- The external events that mutate scheduler state, for reachability
arguments: loop iterations and the public control methods. -/
inductive SchedEvent where
  | tick (now : Int) (scanFails : Bool)
  | start (now : Int)
  | stop
  | pause
  | resume (now : Int)
  | setInterval (i : Int) (now : Int)
  | triggerNow (now : Int)
deriving DecidableEq

/-- Apply one scheduler event (raising calls leave the state as the methods
leave it). -/
def stepEvent (st : SchedState) : SchedEvent → SchedState
  | .tick now f => (scheduler_tick st now f).1
  | .start now => startSched st now
  | .stop => stopSched st
  | .pause => pauseSched st
  | .resume now => (resumeSched st now).1
  | .setInterval i now => (set_scan_interval st i now).1
  | .triggerNow now => (trigger_scan_now st now).1

/-- The scheduler state reached from construction by a sequence of events. -/
def runEvents (interval : Int) (evs : List SchedEvent) : SchedState :=
  evs.foldl stepEvent (initSched interval)

/-! ## Concrete instances used by counterexamples and witnesses -/

/-- A minimal labeled row of the articles table. -/
def labeledRow (i : Nat) : StoredArticle :=
  { id := i, title := [], content := [], image_url := none,
    relevance_score := 0, user_interest := some 1 }

/-- A database of `n` labeled articles with prior classifier state:
vectorizer 7, classifier 8, untrained flag. -/
def dbWith (n : Nat) : LearnDB :=
  { articles := (List.range n).map labeledRow, feedback := [],
    vectorizer := some 7, classifier := some 8, model_trained := false }

/-- An empty learning database. -/
def emptyDB : LearnDB :=
  { articles := [], feedback := [], vectorizer := none, classifier := none,
    model_trained := false }

/-- An article on which the keyword `art` occurs as a substring of
`artichoke` but not as a whole word. -/
def aC9 : Article :=
  { title := str "Report", content := [],
    cleaned_content := str "the artichoke soup", image_url := none }

/-- A scheduler state with one successful scan completed at instant 0 and the
next scan pending at instant 3600. -/
def stRunA : SchedState :=
  { scan_interval := 3600, config_scan_interval := 3600, enabled := true,
    running := true, last_scan := some 0, next_scan := some 3600,
    total_scans := 1, successful_scans := 1, failed_scans := 0 }

/-- A running scheduler state whose last scan happened at instant 100. -/
def stRunB : SchedState :=
  { scan_interval := 3600, config_scan_interval := 3600, enabled := true,
    running := true, last_scan := some 100, next_scan := some 3700,
    total_scans := 1, successful_scans := 1, failed_scans := 0 }

/-! ## Helper lemmas -/

theorem is_relevant_sanity :
    is_relevant ⟨[str "news"], [], 100⟩
      ⟨str "Breaking News Today", str "short", str "", none⟩ = false := by decide

theorem ite_accum_pos (c : Prop) [Decidable c] (s x : ℚ) :
    (if c then s + x else s) = s + (if c then x else 0) := by
  split <;> ring

theorem ite_accum_neg (c : Prop) [Decidable c] (s x : ℚ) :
    (if c then s else s + x) = s + (if c then 0 else x) := by
  split <;> ring

/-- Closed form of the record-time relevance score: the sum of the four
factors, capped at 1; the keyword factor is the substring-match fraction
(which the rationals read as 0 when no keywords are configured, as the
source skips the term). -/
theorem calculate_relevance_score_closed (cfg : LDConfig) (a : Article) :
    calculate_relevance_score cfg a =
      min ((if 20 ≤ a.title.length ∧ a.title.length ≤ 100 then (2 : ℚ) / 10 else 0)
        + (if 200 < a.cleaned_content.length then (2 : ℚ) / 10 else 0)
        + ((score_keyword_matches cfg a : ℚ) / (cfg.keywords.length : ℚ)) * (4 / 10)
        + (if optTruthy a.image_url then (2 : ℚ) / 10 else 0)) 1 := by
  unfold calculate_relevance_score
  by_cases hk : cfg.keywords.isEmpty
  · have h0 : cfg.keywords = [] := by simpa [List.isEmpty_iff] using hk
    simp only [h0, score_keyword_matches, List.filter_nil, List.length_nil,
      Nat.cast_zero, List.isEmpty_nil, if_true, div_zero, zero_div, zero_mul, add_zero]
    congr 1
    rw [ite_accum_pos, ite_accum_pos, ite_accum_pos]
    ring
  · simp only [hk, if_false, Bool.false_eq_true]
    congr 1
    rw [ite_accum_pos, ite_accum_pos, ite_accum_pos]
    ring

/-- The keyword fraction never exceeds 1. -/
theorem score_keyword_fraction_le_one (cfg : LDConfig) (a : Article) :
    ((score_keyword_matches cfg a : ℚ) / (cfg.keywords.length : ℚ)) ≤ 1 := by
  rcases Nat.eq_zero_or_pos cfg.keywords.length with h | h
  · simp [h]
  · rw [div_le_one (by exact_mod_cast h)]
    exact_mod_cast List.length_filter_le _ _

theorem calculate_relevance_score_nonneg (cfg : LDConfig) (a : Article) :
    0 ≤ calculate_relevance_score cfg a := by
  rw [calculate_relevance_score_closed]
  refine le_min ?_ (by norm_num)
  have h1 : (0 : ℚ) ≤ if 20 ≤ a.title.length ∧ a.title.length ≤ 100 then (2 : ℚ) / 10 else 0 := by
    split <;> norm_num
  have h2 : (0 : ℚ) ≤ if 200 < a.cleaned_content.length then (2 : ℚ) / 10 else 0 := by
    split <;> norm_num
  have h3 : (0 : ℚ) ≤ ((score_keyword_matches cfg a : ℚ) / (cfg.keywords.length : ℚ)) * (4 / 10) := by
    positivity
  have h4 : (0 : ℚ) ≤ if optTruthy a.image_url then (2 : ℚ) / 10 else 0 := by
    split <;> norm_num
  linarith

theorem calculate_relevance_score_le_one (cfg : LDConfig) (a : Article) :
    calculate_relevance_score cfg a ≤ 1 := by
  rw [calculate_relevance_score_closed]
  exact min_le_right _ _

/-! ## Claim C1 -/

/-- C1: the relevance score computed at record time equals the sum of 0.2
for a title length in the 20 to 100 band, 0.2 for cleaned-content length
above 200, 0.4 times the fraction of configured keywords present
(case-insensitively) in the combined title-and-content text, and 0.2 for a
present image reference, capped at 1; and it always lies in the interval
from 0 to 1. -/
theorem C1_record_time_relevance_score (cfg : LDConfig) (db : LearnDB)
    (a : Article) (newId : Nat) :
    ∃ row : StoredArticle,
      (record_article cfg db a newId).articles = db.articles ++ [row] ∧
      row.relevance_score =
        min ((if 20 ≤ a.title.length ∧ a.title.length ≤ 100 then (2 : ℚ) / 10 else 0)
          + (if 200 < a.cleaned_content.length then (2 : ℚ) / 10 else 0)
          + ((score_keyword_matches cfg a : ℚ) / (cfg.keywords.length : ℚ)) * (4 / 10)
          + (if optTruthy a.image_url then (2 : ℚ) / 10 else 0)) 1 ∧
      0 ≤ row.relevance_score ∧ row.relevance_score ≤ 1 := by
  refine ⟨_, rfl, ?_, ?_, ?_⟩
  · exact calculate_relevance_score_closed cfg a
  · exact calculate_relevance_score_nonneg cfg a
  · exact calculate_relevance_score_le_one cfg a

/-! ## Claim C2 -/

theorem contains_blacklisted_iff (cf : CFConfig) (t : Str) :
    contains_blacklisted_terms cf t = true ↔
      ∃ b ∈ cf.blacklist, wwSearch b t = true := by
  simp [contains_blacklisted_terms, List.any_eq_true]

theorem contains_keywords_false_iff (cf : CFConfig) (t : Str) :
    contains_keywords cf t = false ↔
      cf.keywords ≠ [] ∧ ∀ k ∈ cf.keywords, wwSearch k t = false := by
  unfold contains_keywords
  by_cases h : cf.keywords.isEmpty
  · have h0 : cf.keywords = [] := by simpa [List.isEmpty_iff] using h
    simp [h0]
  · have h0 : cf.keywords ≠ [] := by simpa [List.isEmpty_iff] using h
    simp only [h, Bool.false_eq_true, if_false]
    constructor
    · intro hall
      refine ⟨h0, fun k hk => ?_⟩
      have := List.any_eq_false.mp hall k hk
      simpa using this
    · intro ⟨_, hall⟩
      exact List.any_eq_false.mpr fun k hk => by simp [hall k hk]

theorem low_quality_iff (c : Str) :
    is_low_quality_content c = true ↔
      ((splitWords (lowerStr c)).length < 20 ∨
       ((splitWords (lowerStr c)).dedup.length : ℚ) /
         ((splitWords (lowerStr c)).length : ℚ) < 3 / 10 ∨
       (countPunct c : ℚ) / (c.length : ℚ) > 5 / 100) := by
  unfold is_low_quality_content
  split_ifs <;> simp <;> tauto

theorem additional_checks_false_iff (a : Article) :
    additional_relevance_checks a = false ↔
      ((a.title.length < 10 ∨ 200 < a.title.length) ∨
       is_low_quality_content a.content = true ∨
       (countUpper a.title : ℚ) / (a.title.length : ℚ) > 3 / 10) := by
  unfold additional_relevance_checks
  split_ifs with h1 h2 h3
  · exact iff_of_true rfl (Or.inl h1)
  · exact iff_of_true rfl (Or.inr (Or.inl h2))
  · exact iff_of_true rfl (Or.inr (Or.inr h3))
  · exact iff_of_false (by simp) (by rintro (h | h | h) <;> contradiction)

/-- C2: with the default minimum content length 100, the gate returns false
exactly when some rejection condition holds: combined lowercased text
shorter than 100 characters (the combined text joins title and content with
one space), a whole-word case-insensitive blacklist match, configured
keywords none of which matches whole-word, a title length outside the 10 to
200 band, an uppercase ratio of the title above 0.3, or low-quality content
(under 20 words, unique-word ratio below 0.3, or a ratio of exclamation and
question marks above 0.05). -/
theorem C2_is_relevant_characterization (kws bl : List Str) (a : Article) :
    is_relevant ⟨kws, bl, 100⟩ a = false ↔
      ((lowerStr a.title ++ [' '] ++ lowerStr a.content).length < 100 ∨
       (∃ b ∈ bl, wwSearch b (lowerStr a.title ++ [' '] ++ lowerStr a.content) = true) ∨
       (kws ≠ [] ∧ ∀ k ∈ kws,
         wwSearch k (lowerStr a.title ++ [' '] ++ lowerStr a.content) = false) ∨
       (a.title.length < 10 ∨ 200 < a.title.length) ∨
       (countUpper a.title : ℚ) / (a.title.length : ℚ) > 3 / 10 ∨
       ((splitWords (lowerStr a.content)).length < 20 ∨
        ((splitWords (lowerStr a.content)).dedup.length : ℚ) /
          ((splitWords (lowerStr a.content)).length : ℚ) < 3 / 10 ∨
        (countPunct a.content : ℚ) / (a.content.length : ℚ) > 5 / 100)) := by
  unfold is_relevant
  dsimp only
  split_ifs with h1 h2 h3
  · exact iff_of_true rfl (Or.inl h1)
  · exact iff_of_true rfl (Or.inr (Or.inl ((contains_blacklisted_iff _ _).mp h2)))
  · rw [additional_checks_false_iff, low_quality_iff]
    have hb : ¬ ∃ b ∈ bl,
        wwSearch b (lowerStr a.title ++ [' '] ++ lowerStr a.content) = true :=
      fun hx => h2 ((contains_blacklisted_iff _ _).mpr hx)
    have hk : ¬ (kws ≠ [] ∧ ∀ k ∈ kws,
        wwSearch k (lowerStr a.title ++ [' '] ++ lowerStr a.content) = false) := by
      intro hx
      have hfalse := (contains_keywords_false_iff
        (⟨kws, bl, 100⟩ : CFConfig)
        (lowerStr a.title ++ [' '] ++ lowerStr a.content)).mpr hx
      rw [h3] at hfalse
      exact absurd hfalse (by simp)
    constructor
    · rintro (h | h | h)
      · exact Or.inr (Or.inr (Or.inr (Or.inl h)))
      · exact Or.inr (Or.inr (Or.inr (Or.inr (Or.inr h))))
      · exact Or.inr (Or.inr (Or.inr (Or.inr (Or.inl h))))
    · rintro (h | h | h | h | h | h)
      · exact absurd h h1
      · exact absurd h hb
      · exact absurd h hk
      · exact Or.inl h
      · exact Or.inr (Or.inr h)
      · exact Or.inr (Or.inl h)
  · have h3f : contains_keywords ⟨kws, bl, 100⟩
        (lowerStr a.title ++ [' '] ++ lowerStr a.content) = false := by
      simpa using h3
    exact iff_of_true rfl
      (Or.inr (Or.inr (Or.inl ((contains_keywords_false_iff _ _).mp h3f))))

/-! ## Claim C3 -/

theorem train_model_articles (db : LearnDB) (env : TrainEnv) :
    (train_model db env).articles = db.articles := by
  unfold train_model
  dsimp only
  split_ifs <;> rfl

theorem train_model_feedback (db : LearnDB) (env : TrainEnv) :
    (train_model db env).feedback = db.feedback := by
  unfold train_model
  dsimp only
  split_ifs <;> rfl

/-- C3 counterexample: with 50 labeled examples present and a failure raised
inside the vectorizer fitting step, the previous classifier state is not
left intact — the vectorizer reference has already been replaced by the
fresh object when the exception is swallowed. -/
theorem C3_counterexample :
    50 ≤ labeled_count (dbWith 50) ∧
    (dbWith 50).vectorizer = some 7 ∧
    (train_model (dbWith 50) ⟨some 0, 99, 100⟩).vectorizer = some 99 ∧
    train_model (dbWith 50) ⟨some 0, 99, 100⟩ ≠ dbWith 50 := by decide

/-- C3 (amended): training with fewer than 50 labeled examples returns with
the prior classifier state exactly intact, the trained flag becomes set only
when every fitting and evaluation step succeeds (and then the state is the
full replacement), and training never touches the article or feedback
tables; but a mid-training failure may leave a partially replaced
vectorizer/classifier pair, so replacement is not atomic on failure. -/
theorem C3_train_refusal_amended (db : LearnDB) (env : TrainEnv) :
    (labeled_count db < 50 → train_model db env = db) ∧
    ((train_model db env).model_trained = true → db.model_trained = true ∨
      (50 ≤ labeled_count db ∧ env.failStep ≠ some 0 ∧ env.failStep ≠ some 1 ∧
        env.failStep ≠ some 2 ∧
        train_model db env =
          { db with vectorizer := some env.newVec, classifier := some env.newClf,
                    model_trained := true })) ∧
    (train_model db env).articles = db.articles ∧
    (train_model db env).feedback = db.feedback := by
  refine ⟨?_, ?_, train_model_articles db env, train_model_feedback db env⟩
  · intro h
    unfold train_model
    dsimp only
    rw [if_pos (by simpa [labeled_count] using h)]
  · unfold train_model
    dsimp only
    by_cases hlen : (labeledArticles db).length < 50
    · rw [if_pos hlen]
      exact fun h => Or.inl h
    · rw [if_neg hlen]
      by_cases h0 : env.failStep = some 0
      · rw [if_pos h0]
        intro h
        exact Or.inl (by simpa using h)
      · rw [if_neg h0]
        by_cases h1 : env.failStep = some 1
        · rw [if_pos h1]
          intro h
          exact Or.inl (by simpa using h)
        · rw [if_neg h1]
          by_cases h2 : env.failStep = some 2
          · rw [if_pos h2]
            intro h
            exact Or.inl (by simpa using h)
          · rw [if_neg h2]
            intro _
            refine Or.inr ⟨by simp only [labeled_count]; omega, h0, h1, h2, rfl⟩

/-- C3 witness: 49 labeled examples refuse training, leaving the state
untouched. -/
theorem C3_witness :
    labeled_count (dbWith 49) < 50 ∧
    train_model (dbWith 49) ⟨none, 99, 100⟩ = dbWith 49 :=
  ⟨by decide, (C3_train_refusal_amended (dbWith 49) ⟨none, 99, 100⟩).1 (by decide)⟩

/-! ## Claim C4 -/

/-- C4: the feedback event is appended to the store before the retrain gate
is evaluated — the count the gate sees includes the event just applied, one
more than before — and retraining is invoked exactly when that count reaches
10. -/
theorem C4_retrain_gate (db : LearnDB) (env : TrainEnv) (id : Nat) (ft : Str)
    (now : Int) :
    (record_user_feedback db env id ft now).1.feedback =
      db.feedback ++ [⟨id, ft, now⟩] ∧
    recent_feedback_count { db with feedback := db.feedback ++ [⟨id, ft, now⟩] } now =
      recent_feedback_count db now + 1 ∧
    ((record_user_feedback db env id ft now).2 = true ↔
      10 ≤ recent_feedback_count { db with feedback := db.feedback ++ [⟨id, ft, now⟩] } now) := by
  have hday : now - oneDay < now := by unfold oneDay; omega
  refine ⟨?_, ?_, ?_⟩
  · unfold record_user_feedback
    dsimp only
    split_ifs <;> simp [train_model_feedback]
  · simp [recent_feedback_count, List.filter_append, hday]
  · unfold record_user_feedback
    dsimp only
    split_ifs with hA hB hC <;>
      simp_all [should_retrain, recent_feedback_count]

/-! ## Claim C5 -/

/-- C5 (code defect): the scheduling loop consults only the running flag and
the next-scan time, never the enabled flag that pause lowers, so a scan
cycle fires while the scheduler is paused: start at instant 0 schedules the
first scan for instant 60; after pause the state is Paused (running and not
enabled), yet the loop iteration at instant 60 performs a scan. -/
theorem C5_scan_fires_while_paused :
    (pauseSched (startSched (initSched 3600) 0)).running = true ∧
    (pauseSched (startSched (initSched 3600) 0)).enabled = false ∧
    (scheduler_tick (pauseSched (startSched (initSched 3600) 0)) 60 false).2 = true ∧
    (scheduler_tick (pauseSched (startSched (initSched 3600) 0)) 60 false).1.total_scans = 1 := by
  decide

/-! ## Claim C6 -/

/-- C6 counterexample: after a successful scan at instant 0 with interval
3600, the scan firing at instant 3600 fails; both counters are incremented,
but the recomputed next-scan time is 3600 itself — the moment of failure,
not strictly later. -/
theorem C6_counterexample :
    runEvents 3600 [SchedEvent.start (-60), SchedEvent.tick 0 false] = stRunA ∧
    (scheduler_tick stRunA 3600 true).1.total_scans = 2 ∧
    (scheduler_tick stRunA 3600 true).1.failed_scans = 1 ∧
    (scheduler_tick stRunA 3600 true).1.next_scan = some 3600 ∧
    ¬ (3600 : Int) < 3600 := by decide

/-- C6 (amended): when the scan cycle that fires at a due next-scan time
fails, the scheduler increments total and failed counters, leaves the
successful counter and the running flag alone, and recomputes the next scan
time as last_scan + interval when a previous successful scan exists — a
value that need not lie in the future — or as now + 60, strictly in the
future, when none does. -/
theorem C6_failed_scan_amended (st : SchedState) (now t : Int)
    (hrun : st.running = true) (hns : st.next_scan = some t) (ht : t ≤ now) :
    (scheduler_tick st now true).2 = true ∧
    (scheduler_tick st now true).1.total_scans = st.total_scans + 1 ∧
    (scheduler_tick st now true).1.failed_scans = st.failed_scans + 1 ∧
    (scheduler_tick st now true).1.successful_scans = st.successful_scans ∧
    (scheduler_tick st now true).1.running = true ∧
    (scheduler_tick st now true).1.next_scan =
      some (match st.last_scan with
            | some l => l + st.scan_interval
            | none => now + 60) ∧
    (st.last_scan = none → now < now + 60) := by
  have hstep : scheduler_tick st now true =
      (schedule_next_scan (perform_scan st now true) now, true) := by
    unfold scheduler_tick
    rw [hrun, hns]
    simp [ht]
  rw [hstep]
  cases hls : st.last_scan with
  | none =>
    refine ⟨rfl, ?_⟩
    simp [perform_scan, schedule_next_scan, hls, hrun]
  | some l =>
    refine ⟨rfl, ?_⟩
    simp [perform_scan, schedule_next_scan, hls, hrun]

/-- C6 witness: the amended statement evaluated on the concrete failing
state. -/
theorem C6_witness :
    stRunA.running = true ∧ stRunA.next_scan = some 3600 ∧
    (3600 : Int) ≤ 3600 ∧
    (scheduler_tick stRunA 3600 true).1.total_scans = stRunA.total_scans + 1 :=
  ⟨by decide, by decide, by decide,
    (C6_failed_scan_amended stRunA 3600 3600 (by decide) (by decide) (by decide)).2.1⟩

/-! ## Claim C7 -/

theorem map_label_unknown (l : List StoredArticle) (id u : Nat)
    (h : ∀ a ∈ l, a.id ≠ id) :
    (l.map fun a => if a.id = id then { a with user_interest := some u } else a) = l := by
  induction l with
  | nil => rfl
  | cons x xs ih =>
    simp only [List.map_cons]
    rw [if_neg (h x (by simp))]
    rw [ih fun a ha => h a (by simp [ha])]

/-- C7 counterexample: feedback for an identity absent from the store still
appends a feedback event, so the recent-feedback count that gates
retraining does change (here from 0 to 1). -/
theorem C7_counterexample :
    (∀ a ∈ emptyDB.articles, a.id ≠ 42) ∧
    recent_feedback_count emptyDB 0 = 0 ∧
    recent_feedback_count
      (record_user_feedback emptyDB ⟨none, 0, 0⟩ 42 (str "interested") 0).1 0 = 1 := by
  decide

/-- C7 (amended): feedback with an article identity not present in the store
does not raise (the embedding is total, mirroring the catch-all handler),
leaves every stored article and the labeled-article count unchanged, but the
feedback event itself is still appended — so the recent-feedback count that
gates retraining grows by the event. -/
theorem C7_unknown_feedback_amended (db : LearnDB) (env : TrainEnv) (id : Nat)
    (ft : Str) (now : Int) (h : ∀ a ∈ db.articles, a.id ≠ id) :
    (record_user_feedback db env id ft now).1.articles = db.articles ∧
    labeled_count (record_user_feedback db env id ft now).1 = labeled_count db ∧
    (record_user_feedback db env id ft now).1.feedback =
      db.feedback ++ [⟨id, ft, now⟩] := by
  have hart : (record_user_feedback db env id ft now).1.articles = db.articles := by
    unfold record_user_feedback
    dsimp only
    split_ifs <;>
      simp [train_model_articles, map_label_unknown db.articles id 1 h,
        map_label_unknown db.articles id 0 h]
  refine ⟨hart, ?_, ?_⟩
  · unfold labeled_count labeledArticles
    rw [hart]
  · unfold record_user_feedback
    dsimp only
    split_ifs <;> simp [train_model_feedback]

/-- C7 witness: the amended statement evaluated on an empty store. -/
theorem C7_witness :
    (∀ a ∈ emptyDB.articles, a.id ≠ 42) ∧
    (record_user_feedback emptyDB ⟨none, 0, 0⟩ 42 (str "clicked") 0).1.articles =
      emptyDB.articles :=
  ⟨by decide,
    (C7_unknown_feedback_amended emptyDB ⟨none, 0, 0⟩ 42 (str "clicked") 0 (by decide)).1⟩

/-! ## Claim C8 -/

/-- C8: an interval below 60 raises and leaves the whole state unchanged; an
interval of at least 60 succeeds, updates the interval and its persisted
copy, and — when the scheduler is running and a scan has happened —
immediately recomputes the next scan time as last scan time plus the new
interval. -/
theorem C8_set_scan_interval (st : SchedState) (i now : Int) :
    (i < 60 → set_scan_interval st i now = (st, true)) ∧
    (60 ≤ i →
      (set_scan_interval st i now).2 = false ∧
      (set_scan_interval st i now).1.scan_interval = i ∧
      (set_scan_interval st i now).1.config_scan_interval = i ∧
      (st.running = true → ∀ t, st.last_scan = some t →
        (set_scan_interval st i now).1.next_scan = some (t + i))) := by
  constructor
  · intro h
    unfold set_scan_interval
    rw [if_pos h]
  · intro h
    have hn : ¬ i < 60 := by omega
    by_cases hr : st.running
    · refine ⟨?_, ?_, ?_, ?_⟩
      · cases hls : st.last_scan <;>
          simp [set_scan_interval, hn, hr, schedule_next_scan, hls]
      · cases hls : st.last_scan <;>
          simp [set_scan_interval, hn, hr, schedule_next_scan, hls]
      · cases hls : st.last_scan <;>
          simp [set_scan_interval, hn, hr, schedule_next_scan, hls]
      · intro _ t ht
        simp [set_scan_interval, hn, hr, schedule_next_scan, ht]
    · refine ⟨?_, ?_, ?_, ?_⟩
      · simp [set_scan_interval, hn, hr]
      · simp [set_scan_interval, hn, hr]
      · simp [set_scan_interval, hn, hr]
      · intro hcontra _ _
        exact absurd hcontra hr

/-- C8 witness: on a running state with last scan at instant 100, interval
30 is refused with the state unchanged, and interval 120 is accepted with
the next scan recomputed to instant 220. -/
theorem C8_witness :
    ((30 : Int) < 60 ∧ set_scan_interval stRunB 30 0 = (stRunB, true)) ∧
    ((60 : Int) ≤ 120 ∧ (set_scan_interval stRunB 120 0).1.next_scan = some 220) :=
  ⟨⟨by decide, (C8_set_scan_interval stRunB 30 0).1 (by decide)⟩,
   ⟨by decide, by
      have h := ((C8_set_scan_interval stRunB 120 0).2 (by decide)).2.2.2
        (by decide) 100 (by decide)
      simpa using h⟩⟩

/-! ## Claim C9 -/

/-- C9 counterexample: with configured keyword art, the record-time
relevance score counts the substring-only occurrence inside artichoke — a
text with no whole-word match of the keyword still earns the full 0.4
keyword factor, so the score computation does not use whole-word matching. -/
theorem C9_counterexample :
    subSearch (str "art") (aC9.title ++ [' '] ++ aC9.cleaned_content) = true ∧
    wwSearch (str "art") (aC9.title ++ [' '] ++ aC9.cleaned_content) = false ∧
    calculate_relevance_score ⟨[str "art"], []⟩ aC9 = 2 / 5 := by
  refine ⟨by decide, by decide, ?_⟩
  rw [calculate_relevance_score_closed]
  have h1 : score_keyword_matches ⟨[str "art"], []⟩ aC9 = 1 := by decide
  have h2 : aC9.title.length = 6 := by decide
  have h3 : aC9.cleaned_content.length = 18 := by decide
  have h4 : optTruthy aC9.image_url = false := by decide
  have h5 : (⟨[str "art"], []⟩ : LDConfig).keywords.length = 1 := by decide
  rw [h1, h2, h3, h4, h5]
  norm_num [min_def]

/-- C9 (amended): the is_relevant gate matches blacklist terms and keywords
whole-word and case-insensitively, while the fallback basic interest
prediction and the record-time relevance score use case-insensitive
substring containment; whole-word matching implies substring matching but
not conversely. -/
theorem C9_matching_modes (kws bl : List Str) (t k : Str) (cfg : LDConfig)
    (a : Article) :
    (contains_blacklisted_terms ⟨kws, bl, 100⟩ t = true ↔
      ∃ b ∈ bl, wwSearch b t = true) ∧
    (kws ≠ [] →
      (contains_keywords ⟨kws, bl, 100⟩ t = true ↔
        ∃ x ∈ kws, wwSearch x t = true)) ∧
    (basic_interest_prediction cfg a = true ↔
      ((∀ b ∈ cfg.blacklist,
          subSearch b (lowerStr a.title ++ [' '] ++ lowerStr a.cleaned_content) = false) ∧
       ∃ x ∈ cfg.keywords,
         subSearch x (lowerStr a.title ++ [' '] ++ lowerStr a.cleaned_content) = true)) ∧
    (0 < score_keyword_matches cfg a ↔
      ∃ x ∈ cfg.keywords, subSearch x (a.title ++ [' '] ++ a.cleaned_content) = true) ∧
    (wwSearch k t = true → subSearch k t = true) := by
  refine ⟨contains_blacklisted_iff _ _, ?_, ?_, ?_, ?_⟩
  · intro h
    unfold contains_keywords
    have hne : ¬ (kws.isEmpty) := by simpa [List.isEmpty_iff] using h
    simp [hne, List.any_eq_true]
  · unfold basic_interest_prediction
    dsimp only
    split_ifs with hbl hkw
    · refine iff_of_false (by simp) ?_
      rintro ⟨hall, -⟩
      obtain ⟨b, hb, hsub⟩ := List.any_eq_true.mp hbl
      rw [hall b hb] at hsub
      exact absurd hsub (by simp)
    · refine iff_of_true rfl ⟨?_, List.any_eq_true.mp hkw⟩
      intro b hb
      exact Bool.eq_false_iff.mpr
        (List.any_eq_false.mp (Bool.eq_false_iff.mpr hbl) b hb)
    · refine iff_of_false (by simp) ?_
      rintro ⟨-, x, hx, hsub⟩
      exact absurd hsub (List.any_eq_false.mp (Bool.eq_false_iff.mpr hkw) x hx)
  · unfold score_keyword_matches
    rw [List.length_pos, Ne, List.filter_eq_nil_iff]
    push_neg
    simp
  · intro h
    unfold wwSearch at h
    unfold subSearch
    dsimp only at h ⊢
    rw [List.any_eq_true] at h ⊢
    obtain ⟨i, hi, hp⟩ := h
    simp only [Bool.and_eq_true] at hp
    exact ⟨i, hi, hp.1.2⟩

/-- C9 witness: the whole-word characterization of the keyword gate applied
to a concrete configuration. -/
theorem C9_witness :
    ([str "news"] ≠ ([] : List Str)) ∧
    (contains_keywords ⟨[str "news"], [], 100⟩ (str "daily news digest") = true ↔
      ∃ x ∈ [str "news"], wwSearch x (str "daily news digest") = true) :=
  ⟨by decide,
    (C9_matching_modes [str "news"] [] (str "daily news digest") (str "news")
      ⟨[], []⟩ ⟨[], [], [], none⟩).2.1 (by decide)⟩

/-! ## Claim C10 -/

theorem schedule_next_scan_total (st : SchedState) (now : Int) :
    (schedule_next_scan st now).total_scans = st.total_scans := by
  unfold schedule_next_scan
  cases st.last_scan <;> rfl

theorem schedule_next_scan_succ (st : SchedState) (now : Int) :
    (schedule_next_scan st now).successful_scans = st.successful_scans := by
  unfold schedule_next_scan
  cases st.last_scan <;> rfl

theorem schedule_next_scan_failed (st : SchedState) (now : Int) :
    (schedule_next_scan st now).failed_scans = st.failed_scans := by
  unfold schedule_next_scan
  cases st.last_scan <;> rfl

theorem perform_scan_counters (st : SchedState) (now : Int) (f : Bool) :
    (perform_scan st now f).total_scans = st.total_scans + 1 ∧
    (perform_scan st now f).successful_scans + (perform_scan st now f).failed_scans =
      st.successful_scans + st.failed_scans + 1 := by
  cases f <;> simp [perform_scan] <;> omega

theorem scheduler_tick_cases (st : SchedState) (now : Int) (f : Bool) :
    (scheduler_tick st now f).1 = st ∨
    (scheduler_tick st now f).1 = schedule_next_scan (perform_scan st now f) now := by
  unfold scheduler_tick
  by_cases hr : st.running
  · simp only [hr, if_true]
    cases st.next_scan with
    | none => exact Or.inl rfl
    | some u =>
      by_cases hu : u ≤ now
      · simp [hu]
      · simp [hu]
  · simp [hr]

theorem stepEvent_counter_inv (st : SchedState) (e : SchedEvent)
    (h : st.total_scans = st.successful_scans + st.failed_scans) :
    (stepEvent st e).total_scans =
      (stepEvent st e).successful_scans + (stepEvent st e).failed_scans := by
  cases e with
  | tick now f =>
    simp only [stepEvent]
    rcases scheduler_tick_cases st now f with hc | hc
    · rw [hc]; exact h
    · have h4 := perform_scan_counters st now f
      rw [hc, schedule_next_scan_total, schedule_next_scan_succ, schedule_next_scan_failed]
      omega
  | start now =>
    simp only [stepEvent]
    unfold startSched
    by_cases hr : st.running
    · simpa [hr] using h
    · rw [if_neg hr, schedule_next_scan_total, schedule_next_scan_succ,
        schedule_next_scan_failed]
      exact h
  | stop => simpa [stepEvent, stopSched] using h
  | pause => simpa [stepEvent, pauseSched] using h
  | resume now =>
    simp only [stepEvent]
    unfold resumeSched
    by_cases hr : st.running
    · rw [if_pos hr]
      dsimp only
      rw [schedule_next_scan_total, schedule_next_scan_succ, schedule_next_scan_failed]
      exact h
    · simpa [hr] using h
  | setInterval i now =>
    simp only [stepEvent]
    unfold set_scan_interval
    by_cases hi : i < 60
    · simpa [hi] using h
    · rw [if_neg hi]
      dsimp only
      by_cases hr : st.running
      · rw [if_pos hr]
        dsimp only
        rw [schedule_next_scan_total, schedule_next_scan_succ, schedule_next_scan_failed]
        exact h
      · simpa [hr] using h
  | triggerNow now =>
    simp only [stepEvent]
    unfold trigger_scan_now
    by_cases hr : st.running <;> simpa [hr] using h

theorem runEvents_counter_inv (interval : Int) (evs : List SchedEvent) :
    (runEvents interval evs).total_scans =
      (runEvents interval evs).successful_scans + (runEvents interval evs).failed_scans := by
  suffices hstep : ∀ st : SchedState,
      st.total_scans = st.successful_scans + st.failed_scans →
      (evs.foldl stepEvent st).total_scans =
        (evs.foldl stepEvent st).successful_scans +
          (evs.foldl stepEvent st).failed_scans by
    simpa [runEvents] using hstep (initSched interval) (by simp [initSched])
  induction evs with
  | nil => intro st h; simpa using h
  | cons e rest ih =>
    intro st h
    simpa using ih (stepEvent st e) (stepEvent_counter_inv st e h)

/-- C10: at every scheduler state reachable from construction by any event
sequence, total scans equal successful plus failed scans; a performed scan
increments the total and exactly one of the two outcome counters; and the
success rate of the status query has a positive denominator and always lies
between 0 and 1. -/
theorem C10_scheduler_counters (interval : Int) (evs : List SchedEvent) :
    (runEvents interval evs).total_scans =
      (runEvents interval evs).successful_scans +
        (runEvents interval evs).failed_scans ∧
    (∀ now f,
      (perform_scan (runEvents interval evs) now f).total_scans =
        (runEvents interval evs).total_scans + 1 ∧
      (perform_scan (runEvents interval evs) now f).successful_scans +
          (perform_scan (runEvents interval evs) now f).failed_scans =
        (runEvents interval evs).successful_scans +
          (runEvents interval evs).failed_scans + 1) ∧
    (0 : ℚ) < ((max (runEvents interval evs).total_scans 1 : Nat) : ℚ) ∧
    0 ≤ success_rate (runEvents interval evs) ∧
    success_rate (runEvents interval evs) ≤ 1 := by
  have hinv := runEvents_counter_inv interval evs
  have hpos : (0 : ℚ) < ((max (runEvents interval evs).total_scans 1 : Nat) : ℚ) := by
    exact_mod_cast Nat.lt_of_lt_of_le Nat.zero_lt_one (le_max_right _ _)
  refine ⟨hinv, fun now f => perform_scan_counters _ now f, hpos, ?_, ?_⟩
  · unfold success_rate
    positivity
  · unfold success_rate
    rw [div_le_one hpos]
    have hle : (runEvents interval evs).successful_scans ≤
        max (runEvents interval evs).total_scans 1 :=
      le_trans (by omega) (le_max_left _ _)
    exact_mod_cast hle
